import Mathlib

/-!
Shallow embedding of the dual-mode data-access layer of the eat-with-me
frontend: the hybrid adapter hook (src/hooks/usePOSBillingAdapter.ts), the
API state hook (src/components/usePOSBillingAPI.ts, default export), the
remote client hook (named export usePOSBillingAPI), the kitchen live-update
stream client (src/lib/useKitchenLiveUpdates.ts) and the orders stream
client (src/api/orders.ts, subscribeToOrderUpdates).

JavaScript objects with possibly-absent properties are embedded with
Option fields (an absent property reads as undefined); JavaScript string
truthiness (the empty string is falsy in a || chain) is embedded
explicitly.  Asynchronous remote calls are embedded by passing the call
result (success value or thrown error) as an explicit argument of type
Except, so each handler is a pure function of its state and the response.
-/

/-- Status values of an order, from the union type
`'pending' | 'completed' | 'cancelled'` (src/api/orders.ts). -/
inductive OrderStatus where
  | pending
  | completed
  | cancelled
deriving DecidableEq, Repr

/-- A line item of an order, from interface OrderItem (src/api/orders.ts). -/
structure OrderItem where
  id : String
  name : String
  quantity : Nat
  price : Nat
  category : String
deriving DecidableEq, Repr

/-- A JavaScript order record as it flows through the hooks.  The hooks are
typed over `any`, so `id` and `status` may be absent (undefined): they are
Option fields.  Remaining fields follow interface CreateOrderPayload
(src/api/orders.ts). -/
structure Order where
  id : Option String
  status : Option OrderStatus
  orderSource : Option String
  tableNumber : Option Nat
  items : List OrderItem
  subtotal : Int
  totalAmount : Int
deriving DecidableEq, Repr

/-- Status values of a table, from `'free' | 'occupied' | 'reserved'`
(TableStatusPayload, src/components/usePOSBillingAPI.ts). -/
inductive TableStatus where
  | free
  | occupied
  | reserved
deriving DecidableEq, Repr

/-- A table record as served by GET /tables. -/
structure Table where
  id : String
  tableNumber : Nat
  capacity : Nat
  status : TableStatus
  currentOrderId : Option String
deriving DecidableEq, Repr

/-- A thrown JavaScript error as the hooks read it:
`err.response?.data?.message`, `err.message`, `err.response?.status`,
`err.code`; each read may yield undefined. -/
structure ErrLike where
  responseDataMessage : Option String
  message : Option String
  responseStatus : Option Nat
  code : Option String
deriving DecidableEq, Repr

/-- JavaScript `a || b` on a possibly-undefined string `a`: undefined and
the empty string are falsy, so they fall through to `b`. -/
def jsOrStr (a : Option String) (b : String) : String :=
  match a with
  | some s => if s = "" then b else s
  | none => b

/-- The normalized message of the catch blocks:
`err.response?.data?.message || err.message || fallbackMsg`. -/
def normalizeMessage (e : ErrLike) (fallbackMsg : String) : String :=
  jsOrStr e.responseDataMessage (jsOrStr e.message fallbackMsg)

/-- The APIError record built in every catch block of the API state hook
(src/components/usePOSBillingAPI.ts lines 10-14 and 52-57). -/
structure APIError where
  message : String
  status : Option Nat
  code : Option String
deriving DecidableEq, Repr

/-- The error normalization of the API state hook: message from the ||
chain, status from err.response?.status, code from err.code. -/
def toAPIError (e : ErrLike) (fallbackMsg : String) : APIError :=
  { message := normalizeMessage e fallbackMsg
    status := e.responseStatus
    code := e.code }

/-! ## The API state hook (src/components/usePOSBillingAPI.ts, default export)

State `{orders, loading, error, success}` with handlers fetchOrders,
createOrder, updateOrderStatus, deleteOrder.  Each handler first sets
`loading := true, error := none` and then applies the branch selected by
the awaited response. -/

/-- UsePOSBillingAPIState (src/components/usePOSBillingAPI.ts lines 16-21). -/
structure APIState where
  orders : List Order
  loading : Bool
  error : Option APIError
  success : Bool
deriving DecidableEq, Repr

/-- The initial hook state (lines 34-39). -/
def initialAPIState : APIState :=
  { orders := [], loading := false, error := none, success := false }

/-- The body read by fetchOrders from a successful response: the hook reads
`response.orders || []`, so the property may be absent. -/
structure FetchResponse where
  orders : Option (List Order)
deriving DecidableEq, Repr

/-- fetchOrders (lines 42-66): on success replace the cache with
`response.orders || []`; on failure set the normalized error and clear the
cache (`orders: []`). -/
def fetchOrders (s : APIState) (resp : Except ErrLike FetchResponse) : APIState :=
  let s1 := { s with loading := true, error := none }
  match resp with
  | Except.ok body =>
      { s1 with
        orders := body.orders.getD []
        loading := false
        error := none }
  | Except.error e =>
      { s1 with
        loading := false
        error := some (toAPIError e "Failed to fetch orders")
        orders := [] }

/-- createOrder of the API state hook (lines 69-94): on success append the
response to the cached list and set the success flag; on failure set the
normalized error.  The returned value is the response on success and the
normalized error rethrown on failure. -/
def apiCreateOrder (s : APIState) (resp : Except ErrLike Order) :
    APIState × Except APIError Order :=
  let s1 := { s with loading := true, error := none }
  match resp with
  | Except.ok o =>
      ({ s1 with
          orders := s1.orders ++ [o]
          loading := false
          success := true }, Except.ok o)
  | Except.error e =>
      let err := toAPIError e "Failed to create order"
      ({ s1 with loading := false, error := some err }, Except.error err)

/-- updateOrderStatus of the API state hook (lines 97-121): on success
replace every cached order whose id equals orderId with the response; on
failure set the normalized error. -/
def updateOrderStatus (s : APIState) (orderId : String)
    (resp : Except ErrLike Order) : APIState × Except APIError Unit :=
  let s1 := { s with loading := true, error := none }
  match resp with
  | Except.ok o =>
      ({ s1 with
          orders := s1.orders.map fun x => if x.id = some orderId then o else x
          loading := false
          success := true }, Except.ok ())
  | Except.error e =>
      let err := toAPIError e "Failed to update order"
      ({ s1 with loading := false, error := some err }, Except.error err)

/-- deleteOrder of the API state hook (lines 124-148): on success drop every
cached order whose id equals orderId (`filter (o.id !== orderId)`) and set
the success flag; on failure set the normalized error. -/
def deleteOrder (s : APIState) (orderId : String)
    (resp : Except ErrLike Unit) : APIState × Except APIError Unit :=
  let s1 := { s with loading := true, error := none }
  match resp with
  | Except.ok _ =>
      ({ s1 with
          orders := s1.orders.filter fun o => o.id ≠ some orderId
          loading := false
          success := true }, Except.ok ())
  | Except.error e =>
      let err := toAPIError e "Failed to delete order"
      ({ s1 with loading := false, error := some err }, Except.error err)

/-! ## Sample data used by witnesses and counterexamples -/

/-- The tea line item of the concrete scenario in the spec. -/
def teaItem : OrderItem :=
  { id := "i1", name := "Tea", quantity := 2, price := 20, category := "" }

/-- The concrete createOrder payload of the spec scenario: no id and no
status are supplied by the caller. -/
def teaPayload : Order :=
  { id := none
    status := none
    orderSource := none
    tableNumber := some 1
    items := [teaItem]
    subtotal := 40
    totalAmount := 40 }

/-- A stored order with identifier A in the pending state. -/
def orderA : Order :=
  { teaPayload with id := some "A", status := some OrderStatus.pending }

/-- A stored order with identifier B, untouched by operations on A. -/
def orderB : Order :=
  { teaPayload with id := some "B", status := some OrderStatus.pending }

/-- A sample thrown error carrying a backend message. -/
def sampleErr : ErrLike :=
  { responseDataMessage := some "boom"
    message := some "Request failed"
    responseStatus := some 500
    code := some "ERR_BAD_RESPONSE" }

/-! ## The hybrid adapter hook (src/hooks/usePOSBillingAdapter.ts)

State `{useAPI, adapterLoading, adapterError}` (lines 13-15).  The mount
effect runs checkAPIAvailability once; every operation branches on the
current useAPI flag: true routes to the remote client hook, false to the
context (fallback) data. -/

/-- The operation mode of the spec, derived from the useAPI flag. -/
inductive OperationMode where
  | remote
  | fallback
deriving DecidableEq, Repr

/-- Mode read off the adapter flag: useAPI true is remote, false is
fallback (context). -/
def modeOf (useAPI : Bool) : OperationMode :=
  if useAPI then OperationMode.remote else OperationMode.fallback

/-- The adapter state hook fields (lines 13-15); `useState(false)` seeds
useAPI with false even before the availability probe resolves. -/
structure AdapterState where
  useAPI : Bool
  adapterLoading : Bool
  adapterError : Option String
deriving DecidableEq, Repr

/-- The adapter state at mount: useAPI false, not loading, no error. -/
def initialAdapterState : AdapterState :=
  { useAPI := false, adapterLoading := false, adapterError := none }

/-- checkAPIAvailability (lines 17-32): await apiHook.getTables() inside
try/catch; success sets useAPI true, any thrown failure (network error,
timeout, non-2xx) sets useAPI false.  The catch is unconditional, so the
function is total over every probe outcome. -/
def checkAPIAvailability (probeResult : Except ErrLike (List Table)) : Bool :=
  match probeResult with
  | Except.ok _ => true
  | Except.error _ => false

/-- getTables dispatch of the adapter (lines 35-53): with useAPI true the
remote result is returned as-is; with useAPI false the context tables are
returned directly, always successfully. -/
def adapterGetTables (useAPI : Bool) (apiResult : Except ErrLike (List Table))
    (contextTables : List Table) : Except ErrLike (List Table) :=
  if useAPI then apiResult else Except.ok contextTables

/-- createOrder dispatch of the adapter (lines 98-116): with useAPI true the
remote result is returned; with useAPI false the payload is handed to
contextData.addOrder and the very same payload object is returned
(`return orderData`). -/
def adapterCreateOrder (useAPI : Bool) (apiResult : Except ErrLike Order)
    (orderData : Order) : Except ErrLike Order :=
  if useAPI then apiResult else Except.ok orderData

/-- The catch-and-finally path every adapter operation shares (for getTables,
lines 46-52): set adapterError to `err.message || fallbackMsg`, rethrow the
message, and clear adapterLoading; useAPI is not touched.  The returned
string is the rethrown error message. -/
def adapterOnFailure (s : AdapterState) (errMessage : Option String)
    (fallbackMsg : String) : AdapterState × String :=
  let msg := jsOrStr errMessage fallbackMsg
  ({ s with adapterError := some msg, adapterLoading := false }, msg)

/-! ## The kitchen live-update stream client (src/lib/useKitchenLiveUpdates.ts)

The onmessage handler runs `JSON.parse(event.data)` inside try/catch and
passes the parsed value to onEvent with a compile-time-only cast to
KitchenEvent; a parse failure is swallowed and the connection stays open.
The onerror handler only closes the EventSource. -/

/-- A JSON value arriving on the stream, split by whether it matches one of
the three KitchenEvent shapes (lines 6-9) or is some other JSON document. -/
inductive JsonVal where
  | evCreated (order : Order)
  | evUpdated (order : Order)
  | evDeleted (orderId : String)
  | other (raw : String)
deriving DecidableEq, Repr

/-- The KitchenEvent tagged union (src/lib/useKitchenLiveUpdates.ts
lines 6-9). -/
inductive KitchenEvent where
  | created (order : Order)
  | updated (order : Order)
  | deleted (orderId : String)
deriving DecidableEq, Repr

/-- Decoding a parsed JSON value into a KitchenEvent: only the three tagged
shapes decode; any other JSON document is not a StreamEvent. -/
def eventOfJson : JsonVal → Option KitchenEvent
  | JsonVal.evCreated o => some (KitchenEvent.created o)
  | JsonVal.evUpdated o => some (KitchenEvent.updated o)
  | JsonVal.evDeleted oid => some (KitchenEvent.deleted oid)
  | JsonVal.other _ => none

/-- An inbound frame: some parsed value when JSON.parse succeeds, none when
it throws. -/
abbrev Frame : Type := Option JsonVal

/-- The onmessage handler (lines 23-30) on one frame: a frame that parses is
delivered to onEvent unvalidated (the KitchenEvent annotation is erased at
runtime); a frame that fails to parse is swallowed.  The Bool records
whether the handler closes the connection: it never does. -/
def onmessageHandler (frame : Frame) : List JsonVal × Bool :=
  match frame with
  | some v => ([v], false)
  | none => ([], false)

/-- The values delivered to onEvent over a sequence of inbound frames. -/
def deliveredValues (frames : List Frame) : List JsonVal :=
  frames.flatMap fun f => (onmessageHandler f).1

/-! ## Connection error handling of the two stream clients -/

/-- What an EventSource error handler can do: close the connection, call
the caller-supplied onError, or open a replacement connection. -/
inductive ClientAction where
  | closeConn
  | callOnError
  | openConn
deriving DecidableEq, Repr

/-- The onerror handler of the kitchen stream client (lines 32-34):
`es.close()` and nothing else — the hook does not even accept an onError
callback. -/
def kitchenOnErrorActions : List ClientAction :=
  [ClientAction.closeConn]

/-- The onerror handler of subscribeToOrderUpdates (src/api/orders.ts
lines 171-175): `onError(error); eventSource.close()`. -/
def ordersOnErrorActions : List ClientAction :=
  [ClientAction.callOnError, ClientAction.closeConn]

/-- Observable connection state: whether the source is open, how many times
the caller-supplied onError ran, how many reconnection attempts were made. -/
structure Conn where
  isOpen : Bool
  onErrorInvocations : Nat
  reconnectAttempts : Nat
deriving DecidableEq, Repr

/-- Interpreting one client action on the connection state. -/
def runAction (c : Conn) : ClientAction → Conn
  | ClientAction.closeConn => { c with isOpen := false }
  | ClientAction.callOnError => { c with onErrorInvocations := c.onErrorInvocations + 1 }
  | ClientAction.openConn => { c with isOpen := true, reconnectAttempts := c.reconnectAttempts + 1 }

/-- Interpreting a handler body as the fold of its actions. -/
def runActions (c : Conn) (as : List ClientAction) : Conn :=
  as.foldl runAction c

/-! ## Entity Store reconciliation of StreamEvents

Modelled from the spec: the component wiring useKitchenLiveUpdates into an
order store is not under src/ — only the KitchenEvent declaration and the
stream client are.  Section 4.4 of the spec prescribes: created/updated
upsert the carried Order into the Entity Store by identifier with full
replacement, deleted removes the Order by identifier and absence is not an
error, and the store is the read model of listOrders. -/

/-- Modelled from the spec: upsert by identifier with full-record
replacement; an absent identifier appends the order. -/
def upsertOrder (store : List Order) (o : Order) : List Order :=
  if store.any (fun x => x.id = o.id) then
    store.map fun x => if x.id = o.id then o else x
  else
    store ++ [o]

/-- Modelled from the spec: one reconciliation step of a StreamEvent into
the Entity Store; deleted filters by identifier, so removing an absent
identifier is a total no-op, not an error. -/
def applyKitchenEvent (store : List Order) : KitchenEvent → List Order
  | KitchenEvent.created o => upsertOrder store o
  | KitchenEvent.updated o => upsertOrder store o
  | KitchenEvent.deleted oid => store.filter fun x => x.id ≠ some oid

/-- Reconciling a stream of events in arrival order. -/
def applyKitchenEvents (store : List Order) (es : List KitchenEvent) : List Order :=
  es.foldl applyKitchenEvent store

/-- Modelled from the spec: listOrders reads the Entity Store, the single
read model consumers observe. -/
def listOrders (store : List Order) : List Order :=
  store

/-- An order with identifier A after completion. -/
def orderACompleted : Order :=
  { orderA with status := some OrderStatus.completed }

/-- A sample table used by concrete evaluations. -/
def sampleTable : Table :=
  { id := "t1", tableNumber := 1, capacity := 4, status := TableStatus.free
    currentOrderId := none }

/-! # Theorems settling the claims -/

/-- C1 (counterexample): at the adapter state in force before the first
probe resolves (useAPI seeded false), getTables is serviced from the
context and returns an ok result — it neither blocks nor fails with a
not-ready error, contradicting the claim that no operation is serviced
ahead of mode determination. -/
theorem C1_counterexample :
    adapterGetTables initialAdapterState.useAPI (Except.error sampleErr)
      [sampleTable] = Except.ok [sampleTable] := by
  rfl

/-- C1 (amended): before the first probe resolves the adapter services
every operation in fallback (context) mode: useAPI is initialized to false
and each operation branches on that one flag, so pre-probe calls uniformly
return the context data instead of blocking or returning a not-ready
error. -/
theorem C1_preprobe_serviced_from_context :
    (∀ (apiRes : Except ErrLike (List Table)) (ctxTables : List Table),
        adapterGetTables initialAdapterState.useAPI apiRes ctxTables =
          Except.ok ctxTables) ∧
    (∀ (apiRes : Except ErrLike Order) (payload : Order),
        adapterCreateOrder initialAdapterState.useAPI apiRes payload =
          Except.ok payload) := by
  constructor
  · intro apiRes ctxTables
    rfl
  · intro apiRes payload
    rfl

/-- C2 (counterexample): the whole adapter state is useAPI, adapterLoading
and adapterError; a second consecutive remote failure leaves the adapter
in exactly the state of the first, so no consecutive-failure counter is
incremented anywhere and nothing accumulates toward a re-probe. -/
theorem C2_counterexample :
    (adapterOnFailure
        (adapterOnFailure
            { useAPI := true, adapterLoading := true, adapterError := none }
            (some "boom") "Failed to fetch tables").1
        (some "boom") "Failed to fetch tables").1 =
      (adapterOnFailure
          { useAPI := true, adapterLoading := true, adapterError := none }
          (some "boom") "Failed to fetch tables").1 := by
  rfl

/-- C2 (amended): in remote mode a failing operation records the normalized
message (err.message falling back to the operation default) in
adapterError and rethrows that message to the caller, leaving useAPI — and
hence the operation mode — unchanged: no silent mid-operation fallback.
The adapter keeps no consecutive-failure counter and never re-probes. -/
theorem C2_failure_normalized_mode_kept :
    ∀ (s : AdapterState) (errMessage : Option String) (fallbackMsg : String),
      (adapterOnFailure s errMessage fallbackMsg).1.useAPI = s.useAPI ∧
      modeOf (adapterOnFailure s errMessage fallbackMsg).1.useAPI =
        modeOf s.useAPI ∧
      (adapterOnFailure s errMessage fallbackMsg).1.adapterError =
        some (jsOrStr errMessage fallbackMsg) ∧
      (adapterOnFailure s errMessage fallbackMsg).2 =
        jsOrStr errMessage fallbackMsg := by
  intro s errMessage fallbackMsg
  refine ⟨rfl, rfl, rfl, rfl⟩

/-- C3: reconciling the stream created(A), updated(A, completed),
deleted(A) in arrival order leaves the Entity Store with no entry whose
identifier is A, so a subsequent listOrders contains none; and removing an
absent identifier on a deleted event is a no-op, not an error. -/
theorem C3_created_updated_deleted_reconciles
    (store : List Order) (o1 o2 : Order)
    (h1 : o1.id = some "A") (h2 : o2.id = some "A") :
    (∀ x ∈ listOrders (applyKitchenEvents store
        [KitchenEvent.created o1, KitchenEvent.updated o2,
         KitchenEvent.deleted "A"]),
      x.id ≠ some "A") ∧
    (∀ s : List Order, (∀ x ∈ s, x.id ≠ some "A") →
      applyKitchenEvent s (KitchenEvent.deleted "A") = s) := by
  constructor
  · intro x hx
    simp only [listOrders, applyKitchenEvents, List.foldl, applyKitchenEvent,
      List.mem_filter, decide_eq_true_eq] at hx
    exact hx.2
  · intro s hs
    simp only [applyKitchenEvent]
    exact List.filter_eq_self.mpr fun x hx => by
      simpa using hs x hx

/-- C3 (witness): the reconciliation theorem evaluated at the concrete
store [orderB] and concrete events about identifier A. -/
theorem C3_witness :
    (∀ x ∈ listOrders (applyKitchenEvents [orderB]
        [KitchenEvent.created orderA, KitchenEvent.updated orderACompleted,
         KitchenEvent.deleted "A"]),
      x.id ≠ some "A") ∧
    (∀ s : List Order, (∀ x ∈ s, x.id ≠ some "A") →
      applyKitchenEvent s (KitchenEvent.deleted "A") = s) :=
  C3_created_updated_deleted_reconciles [orderB] orderA orderACompleted rfl rfl

/-- C4 (counterexample): in fallback mode createOrder hands the payload to
the context and returns the payload object itself; at the spec scenario
payload the returned value carries no identifier at all (id is undefined)
and no pending status, contradicting the freshly-generated-id claim. -/
theorem C4_counterexample :
    adapterCreateOrder false (Except.error sampleErr) teaPayload =
        Except.ok teaPayload ∧
      teaPayload.id = none ∧
      teaPayload.status ≠ some OrderStatus.pending := by
  refine ⟨rfl, rfl, ?_⟩
  decide

/-- C4 (amended): in fallback mode createOrder stores the payload via the
context and returns the payload unchanged — no identifier is generated and
no status is stamped on the returned value (any generation inside the
context store is not reflected in the return); the adapter itself exposes
no deleteOrder, deletion exists only in the API-backed hook. -/
theorem C4_fallback_createOrder_returns_payload :
    ∀ (apiRes : Except ErrLike Order) (payload : Order),
      adapterCreateOrder false apiRes payload = Except.ok payload := by
  intro apiRes payload
  rfl

/-- C5 (counterexample): the onmessage handler validates nothing after
JSON.parse — the KitchenEvent annotation is compile-time only — so a frame
holding JSON that is not a StreamEvent shape is still delivered to
onEvent, contradicting the claim that every frame failing to decode into a
StreamEvent is dropped. -/
theorem C5_counterexample :
    eventOfJson (JsonVal.other "ping") = none ∧
      (onmessageHandler (some (JsonVal.other "ping"))).1 =
        [JsonVal.other "ping"] := by
  exact ⟨rfl, rfl⟩

/-- C5 (amended): a frame on which JSON.parse throws is dropped without
invoking onEvent and without closing the connection, and every later frame
is still processed: deleting the unparsable frame from the stream does not
change what is delivered, and no frame ever closes the connection; frames
that parse but do not match the StreamEvent shape are passed to onEvent
unvalidated. -/
theorem C5_parse_failure_dropped_stream_continues :
    ∀ (pre post : List Frame),
      deliveredValues (pre ++ none :: post) = deliveredValues (pre ++ post) ∧
      onmessageHandler none = ([], false) ∧
      (∀ f : Frame, (onmessageHandler f).2 = false) := by
  intro pre post
  refine ⟨?_, rfl, ?_⟩
  · simp [deliveredValues, onmessageHandler]
  · intro f
    cases f <;> rfl

/-- C6 (counterexample): with an already-completed order A cached, an
updateOrderStatus back to pending whose request the backend accepts is
applied in full — A becomes pending again, success is set and no
Validation error is raised — so the frontend enforces no terminal-state
invariant in remote mode. -/
theorem C6_counterexample :
    updateOrderStatus
        { orders := [orderACompleted], loading := false, error := none,
          success := false }
        "A" (Except.ok orderA) =
      ({ orders := [orderA], loading := false, error := none,
          success := true }, Except.ok ()) := by
  rfl

/-- C6 (amended): updateOrderStatus performs no status validation of its
own: whatever order the backend returns on success replaces the cached
order with that id unconditionally — including a transition out of a
terminal status — with success set and error cleared; a Validation
rejection can only originate from the backend, and the fallback path
delegates to context code outside the repository. -/
theorem C6_update_applies_response_unconditionally :
    ∀ (s : APIState) (orderId : String) (o : Order),
      updateOrderStatus s orderId (Except.ok o) =
        ({ s with
            orders := s.orders.map fun x => if x.id = some orderId then o else x
            loading := false
            error := none
            success := true }, Except.ok ()) := by
  intro s orderId o
  rfl

/-- C7 (counterexample): the kitchen stream onerror handler only closes the
EventSource — starting from an open connection it invokes the
caller-supplied onError zero times (the hook does not even accept one),
contradicting the claim that the client invokes onError on transport
error. -/
theorem C7_counterexample :
    runActions { isOpen := true, onErrorInvocations := 0, reconnectAttempts := 0 }
        kitchenOnErrorActions =
      { isOpen := false, onErrorInvocations := 0, reconnectAttempts := 0 } := by
  rfl

/-- C7 (amended): on a transport-level error the kitchen stream client
closes the connection, invokes no callback (it accepts no onError), and
attempts no reconnection; the orders stream client subscribeToOrderUpdates
invokes onError exactly once and then closes, likewise with no internal
reconnection attempt. -/
theorem C7_onerror_closes_without_retry :
    ∀ c : Conn,
      runActions c kitchenOnErrorActions = { c with isOpen := false } ∧
      runActions c ordersOnErrorActions =
        { c with isOpen := false,
                 onErrorInvocations := c.onErrorInvocations + 1 } ∧
      (runActions c kitchenOnErrorActions).reconnectAttempts =
        c.reconnectAttempts ∧
      (runActions c ordersOnErrorActions).reconnectAttempts =
        c.reconnectAttempts := by
  intro c
  refine ⟨rfl, rfl, rfl, rfl⟩

/-- C8: checkAPIAvailability is a total function of the probe outcome — the
try/catch makes failure a value, never an escaping exception — mapping
every successful probe to remote mode and every failed probe (network
error, timeout, non-2xx all arrive as thrown errors) to fallback mode. -/
theorem C8_probe_total_ok_remote_err_fallback :
    (∀ tables : List Table,
        modeOf (checkAPIAvailability (Except.ok tables)) =
          OperationMode.remote) ∧
    (∀ e : ErrLike,
        modeOf (checkAPIAvailability (Except.error e)) =
          OperationMode.fallback) := by
  constructor
  · intro tables
    rfl
  · intro e
    rfl

/-- C9: whenever fetchOrders fails, the hook state afterwards has an empty
cached order list — the previously cached orders are discarded, not
preserved — and the error field set to the normalized APIError. -/
theorem C9_fetch_failure_clears_cache_sets_error :
    ∀ (s : APIState) (e : ErrLike),
      (fetchOrders s (Except.error e)).orders = [] ∧
      (fetchOrders s (Except.error e)).error =
        some (toAPIError e "Failed to fetch orders") := by
  intro s e
  exact ⟨rfl, rfl⟩

/-- C10: on a successful deleteOrder the cached list becomes exactly the
filter dropping the orders whose id equals orderId: membership in the new
cache is membership in the old cache plus a differing id, the new cache is
a sublist of the old one (every survivor unchanged and in its original
relative position), and the success flag is set. -/
theorem C10_delete_success_removes_exactly_matching :
    ∀ (s : APIState) (orderId : String),
      (deleteOrder s orderId (Except.ok ())).1.orders =
        s.orders.filter (fun o => o.id ≠ some orderId) ∧
      List.Sublist (deleteOrder s orderId (Except.ok ())).1.orders s.orders ∧
      (∀ o : Order,
        o ∈ (deleteOrder s orderId (Except.ok ())).1.orders ↔
          o ∈ s.orders ∧ o.id ≠ some orderId) ∧
      (deleteOrder s orderId (Except.ok ())).1.success = true := by
  intro s orderId
  refine ⟨rfl, ?_, ?_, rfl⟩
  · exact List.filter_sublist s.orders
  · intro o
    simp [deleteOrder, List.mem_filter]
